import Mathlib

/-!
Verification development for an air-pollutant monitoring pipeline.

This file gives a shallow embedding, in Lean 4, of the core data-processing
functions of the repository, and proves (or refutes) the frozen claims about
them.  Numeric values are embedded as rationals (the Python code computes with
IEEE floats; all the properties considered here are exact arithmetic facts
that hold identically over ℚ, except for wind-vector trigonometry which is
embedded over ℝ).  Dataframes are embedded as lists of records, one structure
field per column actually used by the functions under study.

Sources embedded:
* `src/data_collection/fetch_all_gases.py` — `normalize_dataframe`,
  `consolidate_dataframes`;
* `src/data_collection/fetch_waqi.py` — the PM2.5 history-accumulation step
  of `fetch_waqi_data` (concat with persisted history, then
  `drop_duplicates(subset=["station_uid", "date"])`, which keeps the first
  occurrence of each key);
* `src/data_collection/fetch_era5_weather.py` — `calculate_wind_components`,
  `track_pollution_movement`;
* `src/models/hotspot_detection.py` — `HotspotDetector.detect_hotspots`,
  `PollutionPredictor._load_data` / `predict`, `calculate_influence_score`,
  `get_ranked_warnings`;
* `src/models/forecasting.py` — `PollutionForecaster.predict_next_24h`,
  `PollutionForecaster._generate_city_forecast`.
-/

/-! ## Generic list helpers

`sortedBy` is insertion sort; it models `DataFrame.sort_values` /
`list.sort(key=...)` (the claims below never depend on the order of
ties, so any comparison sort is a faithful model).

`dedupByFirst` models `DataFrame.drop_duplicates(subset=keys)` with the
pandas default `keep="first"`: the first occurrence of every key survives,
in original order, and every later row with an already-seen key is dropped.
-/

def insertSorted {α : Type} (le : α → α → Bool) (x : α) : List α → List α
  | [] => [x]
  | y :: ys => if le x y then x :: y :: ys else y :: insertSorted le x ys

def sortedBy {α : Type} (le : α → α → Bool) : List α → List α
  | [] => []
  | x :: xs => insertSorted le x (sortedBy le xs)

theorem mem_insertSorted {α : Type} {le : α → α → Bool} {x a : α} {l : List α} :
    a ∈ insertSorted le x l ↔ a = x ∨ a ∈ l := by
  induction l with
  | nil => simp [insertSorted]
  | cons y ys ih =>
    by_cases h : le x y
    · simp [insertSorted, h]
    · simp only [insertSorted, if_neg h, List.mem_cons, ih]
      tauto

theorem mem_sortedBy {α : Type} {le : α → α → Bool} {a : α} {l : List α} :
    a ∈ sortedBy le l ↔ a ∈ l := by
  induction l with
  | nil => simp [sortedBy]
  | cons x xs ih => simp [sortedBy, mem_insertSorted, ih]

def dedupByFirstAux {α κ : Type} [DecidableEq κ] (key : α → κ) :
    List κ → List α → List α
  | _, [] => []
  | seen, x :: xs =>
    if key x ∈ seen then dedupByFirstAux key seen xs
    else x :: dedupByFirstAux key (key x :: seen) xs

def dedupByFirst {α κ : Type} [DecidableEq κ] (key : α → κ) (l : List α) : List α :=
  dedupByFirstAux key [] l

theorem dedupByFirstAux_subset {α κ : Type} [DecidableEq κ] (key : α → κ)
    (seen : List κ) (l : List α) : ∀ x ∈ dedupByFirstAux key seen l, x ∈ l := by
  induction l generalizing seen with
  | nil => simp [dedupByFirstAux]
  | cons a t ih =>
    intro x hx
    by_cases h : key a ∈ seen
    · simp only [dedupByFirstAux, if_pos h] at hx
      exact List.mem_cons_of_mem a (ih seen x hx)
    · simp only [dedupByFirstAux, if_neg h, List.mem_cons] at hx
      rcases hx with rfl | hx
      · exact List.mem_cons_self x t
      · exact List.mem_cons_of_mem a (ih (key a :: seen) x hx)

theorem dedupByFirstAux_not_seen {α κ : Type} [DecidableEq κ] (key : α → κ)
    (seen : List κ) (l : List α) :
    ∀ x ∈ dedupByFirstAux key seen l, key x ∉ seen := by
  induction l generalizing seen with
  | nil => simp [dedupByFirstAux]
  | cons a t ih =>
    intro x hx
    by_cases h : key a ∈ seen
    · simp only [dedupByFirstAux, if_pos h] at hx
      exact ih seen x hx
    · simp only [dedupByFirstAux, if_neg h, List.mem_cons] at hx
      rcases hx with rfl | hx
      · exact h
      · have := ih (key a :: seen) x hx
        intro hmem
        exact this (List.mem_cons_of_mem _ hmem)

theorem dedupByFirstAux_pairwise {α κ : Type} [DecidableEq κ] (key : α → κ)
    (seen : List κ) (l : List α) :
    (dedupByFirstAux key seen l).Pairwise (fun a b => key a ≠ key b) := by
  induction l generalizing seen with
  | nil => simp [dedupByFirstAux]
  | cons a t ih =>
    by_cases h : key a ∈ seen
    · simpa only [dedupByFirstAux, if_pos h] using ih seen
    · simp only [dedupByFirstAux, if_neg h]
      refine List.pairwise_cons.mpr ⟨?_, ih (key a :: seen)⟩
      intro b hb
      have := dedupByFirstAux_not_seen key (key a :: seen) t b hb
      intro hk
      exact this (hk ▸ List.mem_cons_self (key a) seen)

theorem dedupByFirstAux_all_seen {α κ : Type} [DecidableEq κ] (key : α → κ)
    (B : List α) : ∀ seen : List κ, (∀ b ∈ B, key b ∈ seen) →
    dedupByFirstAux key seen B = [] := by
  induction B with
  | nil => intro seen _; simp [dedupByFirstAux]
  | cons b t ih =>
    intro seen h
    have hb : key b ∈ seen := h b (List.mem_cons_self b t)
    simp only [dedupByFirstAux, if_pos hb]
    exact ih seen (fun x hx => h x (List.mem_cons_of_mem b hx))

theorem dedupByFirstAux_append_absorb {α κ : Type} [DecidableEq κ] (key : α → κ)
    (A B : List α) : ∀ seen : List κ,
    (∀ b ∈ B, key b ∈ seen ∨ ∃ a ∈ A, key a = key b) →
    dedupByFirstAux key seen (A ++ B) = dedupByFirstAux key seen A := by
  induction A with
  | nil =>
    intro seen h
    simp only [List.nil_append, dedupByFirstAux]
    refine dedupByFirstAux_all_seen key B seen ?_
    intro b hb
    rcases h b hb with hs | ⟨a, ha, _⟩
    · exact hs
    · exact absurd ha (List.not_mem_nil a)
  | cons a A' ih =>
    intro seen h
    by_cases ha : key a ∈ seen
    · simp only [List.cons_append, dedupByFirstAux, if_pos ha]
      refine ih seen ?_
      intro b hb
      rcases h b hb with hs | ⟨a'', ha'', hk⟩
      · exact Or.inl hs
      · rcases List.mem_cons.mp ha'' with rfl | ha''
        · exact Or.inl (hk ▸ ha)
        · exact Or.inr ⟨a'', ha'', hk⟩
    · simp only [List.cons_append, dedupByFirstAux, if_neg ha]
      refine congrArg (a :: ·) (ih (key a :: seen) ?_)
      intro b hb
      rcases h b hb with hs | ⟨a'', ha'', hk⟩
      · exact Or.inl (List.mem_cons_of_mem _ hs)
      · rcases List.mem_cons.mp ha'' with rfl | ha''
        · exact Or.inl (hk ▸ List.mem_cons_self (key a'') seen)
        · exact Or.inr ⟨a'', ha'', hk⟩

theorem dedupByFirstAux_fixed {α κ : Type} [DecidableEq κ] (key : α → κ)
    (l : List α) (seen : List κ)
    (hfresh : ∀ x ∈ l, key x ∉ seen)
    (hpw : l.Pairwise (fun a b => key a ≠ key b)) :
    dedupByFirstAux key seen l = l := by
  induction l generalizing seen with
  | nil => simp [dedupByFirstAux]
  | cons a t ih =>
    have ha : key a ∉ seen := hfresh a (List.mem_cons_self a t)
    simp only [dedupByFirstAux, if_neg ha]
    have hpw' := List.pairwise_cons.mp hpw
    refine congrArg (a :: ·) (ih (key a :: seen) ?_ hpw'.2)
    intro x hx
    intro hmem
    rcases List.mem_cons.mp hmem with hk | hk
    · exact hpw'.1 x hx hk.symm
    · exact hfresh x (List.mem_cons_of_mem a hx) hk

theorem dedupByFirstAux_mem_key {α κ : Type} [DecidableEq κ] (key : α → κ)
    (l : List α) (x : α) : ∀ seen : List κ, x ∈ l → key x ∉ seen →
    ∃ y ∈ dedupByFirstAux key seen l, key y = key x := by
  induction l with
  | nil => intro seen hx _; exact absurd hx (List.not_mem_nil x)
  | cons a t ih =>
    intro seen hx hseen
    by_cases ha : key a ∈ seen
    · simp only [dedupByFirstAux, if_pos ha]
      rcases List.mem_cons.mp hx with rfl | hx'
      · exact absurd ha hseen
      · exact ih seen hx' hseen
    · simp only [dedupByFirstAux, if_neg ha]
      by_cases hk : key x = key a
      · exact ⟨a, List.mem_cons_self a _, hk.symm⟩
      · rcases List.mem_cons.mp hx with rfl | hx'
        · exact absurd rfl hk
        · have hseen' : key x ∉ key a :: seen := by
            intro hmem
            rcases List.mem_cons.mp hmem with h | h
            · exact hk h
            · exact hseen h
          obtain ⟨y, hy, hky⟩ := ih (key a :: seen) hx' hseen'
          exact ⟨y, List.mem_cons_of_mem a hy, hky⟩

theorem dedupByFirstAux_left_mem {α κ : Type} [DecidableEq κ] (key : α → κ)
    (A B : List α) (b : α) : ∀ seen : List κ,
    (∃ a ∈ A, key a = key b) → key b ∉ seen →
    ∃ a ∈ A, key a = key b ∧ a ∈ dedupByFirstAux key seen (A ++ B) := by
  induction A with
  | nil =>
    intro seen h _
    obtain ⟨a, ha, _⟩ := h
    exact absurd ha (List.not_mem_nil a)
  | cons a A' ih =>
    intro seen h hseen
    by_cases hk : key a = key b
    · have ha : key a ∉ seen := fun hmem => hseen (hk ▸ hmem)
      simp only [List.cons_append, dedupByFirstAux, if_neg ha]
      exact ⟨a, List.mem_cons_self a A', hk, List.mem_cons_self a _⟩
    · obtain ⟨a'', ha'', hk''⟩ := h
      have ha''A : a'' ∈ A' := by
        rcases List.mem_cons.mp ha'' with rfl | hmem
        · exact absurd hk'' hk
        · exact hmem
      by_cases ha : key a ∈ seen
      · simp only [List.cons_append, dedupByFirstAux, if_pos ha]
        obtain ⟨a', ha', hk', hm⟩ := ih seen ⟨a'', ha''A, hk''⟩ hseen
        exact ⟨a', List.mem_cons_of_mem a ha', hk', hm⟩
      · simp only [List.cons_append, dedupByFirstAux, if_neg ha]
        have hseen' : key b ∉ key a :: seen := by
          intro hmem
          rcases List.mem_cons.mp hmem with h' | h'
          · exact hk h'.symm
          · exact hseen h'
        obtain ⟨a', ha', hk', hm⟩ := ih (key a :: seen) ⟨a'', ha''A, hk''⟩ hseen'
        exact ⟨a', List.mem_cons_of_mem a ha', hk', List.mem_cons_of_mem a hm⟩

/-! ## Small numeric helpers -/

/-- Arithmetic mean of a list of rationals, as computed by `Series.mean()`
(the empty case never arises where it is used: callers guard non-emptiness). -/
def listMean (xs : List ℚ) : ℚ := xs.sum / (xs.length : ℚ)

/-- Python string lowercasing: `str.lower()`, applied characterwise.
(`String.toLower` of the standard library is extensionally the same map but
does not reduce in the kernel, so the characterwise map is used directly.) -/
def lowerStr (s : String) : String := ⟨s.data.map Char.toLower⟩

/-- Python `str.strip()`: drop whitespace from both ends. -/
def stripStr (s : String) : String :=
  ⟨((s.data.dropWhile Char.isWhitespace).reverse.dropWhile Char.isWhitespace).reverse⟩

/-- Python `needle in hay` / `Series.str.contains` substring test, on the
underlying character lists. -/
def containsSub {α : Type} [DecidableEq α] : List α → List α → Bool
  | [], needle => needle.isEmpty
  | hay@(_ :: t), needle => needle.isPrefixOf hay || containsSub t needle

/-! ## Canonical measurement records

`Row` is a fused measurement: one row of the dataset produced by
`consolidate_dataframes` / consumed by the analytics functions.  The columns
embedded are exactly those the functions under study read (`date`,
`latitude`, `longitude`, `parameter`, `value`, `location`, `source`); the
`unit` column and the `lat`/`lon` column renaming of `normalize_dataframe`
are byte-level concerns of the CSV schema that no claim touches.  `RawRow`
is a pre-normalization row: latitude, longitude and value may be missing
(`none` models NaN), which `normalize_dataframe` filters out.
-/

structure Row where
  date : ℤ
  latitude : ℚ
  longitude : ℚ
  value : ℚ
  parameter : String
  location : String
  source : String
deriving DecidableEq

structure RawRow where
  date : ℤ
  latitude : Option ℚ
  longitude : Option ℚ
  value : Option ℚ
  parameter : String
  location : String
  source : String
deriving DecidableEq

/-- Geographic bounds of the shared Area of Interest, from
`src/utils/gas_config.py` (`WAQI_BOUNDS`, and the same corners in
`AREA_OF_INTEREST`). -/
structure GeoBounds where
  min_lat : ℚ
  max_lat : ℚ
  min_lon : ℚ
  max_lon : ℚ

def WAQI_BOUNDS : GeoBounds := { min_lat := 13/2, max_lat := 75/2, min_lon := 68, max_lon := 195/2 }

/-- Per-row effect of `normalize_dataframe` in
`src/data_collection/fetch_all_gases.py` (lines 177-204): lowercase the
`parameter` column, keep only rows with `8 ≤ latitude ≤ 37`,
`68 ≤ longitude ≤ 97`, `value > 0`, and none of latitude/longitude/value
missing.  In pandas a NaN coordinate or value already fails the bound /
positivity comparisons, and `dropna` removes any remaining missing field,
so a row survives exactly when all three fields are present and the numeric
conditions hold; the surviving row is returned with all fields present.
The `date` column coercion (`pd.to_datetime(..., errors="coerce")`) does not
drop rows and no claim reads dates of fused rows, so `date` is carried
through unchanged. -/
def rowPasses (r : RawRow) : Option Row :=
  match r.latitude, r.longitude, r.value with
  | some la, some lo, some v =>
    if 8 ≤ la ∧ la ≤ 37 ∧ 68 ≤ lo ∧ lo ≤ 97 ∧ 0 < v then
      some { date := r.date, latitude := la, longitude := lo, value := v,
             parameter := lowerStr r.parameter, location := r.location,
             source := r.source }
    else none
  | _, _, _ => none

def normalize_dataframe (df : List RawRow) : List Row := df.filterMap rowPasses

/-- Embedding of `consolidate_dataframes` (fetch_all_gases.py, lines
207-216): a `none` entry models a source that returned `None`, an empty list
models an empty dataframe; both are discarded, the rest are concatenated and
normalized.  An empty valid list short-circuits to the empty dataset. -/
def consolidate_dataframes (dfs : List (Option (List RawRow))) : List Row :=
  if ((dfs.filterMap id).filter (fun d => !d.isEmpty)).isEmpty then []
  else normalize_dataframe ((dfs.filterMap id).filter (fun d => !d.isEmpty)).flatten

/-! ## History Accumulator (WAQI PM2.5 history)

Embedding of the PM2.5 append logic of `fetch_waqi_data`
(`src/data_collection/fetch_waqi.py`, lines 218-241): when the new batch of
PM2.5 rows is non-empty, the persisted history is concatenated in front of
the batch and `drop_duplicates(subset=["station_uid", "date"])` is applied.
pandas `drop_duplicates` defaults to `keep="first"`, so the first occurrence
of each (station_uid, date) key — i.e. the record already in the persisted
history, when the key collides — survives.  When the batch is empty the
persisted history is left untouched.
-/

structure HistRow where
  station_uid : ℤ
  date : ℤ
  value : ℚ
deriving DecidableEq

def histKey (r : HistRow) : ℤ × ℤ := (r.station_uid, r.date)

def accumulate_pm25_history (hist batch : List HistRow) : List HistRow :=
  if batch.isEmpty then hist else dedupByFirst histKey (hist ++ batch)

/-! ## Influence score -/

/-- Embedding of `calculate_influence_score`
(`src/models/hotspot_detection.py`, lines 215-228). -/
def calculate_influence_score (value wind_speed precipitation : ℚ) : ℚ :=
  value * (1 + wind_speed / 15) * (1 / (1 + precipitation * 5))

/-! ## Theorems: Data Fusion Layer (C3, C8) -/

/-- C3: `consolidate_dataframes` never raises on an empty input list (it
returns the empty dataset), and its output on any list of per-source batches
equals its output on the sublist of just the present, non-empty batches
(missing sources are `None`, failed sources contribute empty batches). -/
theorem consolidate_dataframes_skips_empty_sources :
    consolidate_dataframes [] = [] ∧
    ∀ dfs : List (Option (List RawRow)),
      consolidate_dataframes dfs =
        consolidate_dataframes
          (((dfs.filterMap id).filter (fun d => !d.isEmpty)).map some) := by
  refine ⟨rfl, ?_⟩
  intro dfs
  unfold consolidate_dataframes
  have h1 : (((dfs.filterMap id).filter (fun d => !d.isEmpty)).map some).filterMap id
      = (dfs.filterMap id).filter (fun d => !d.isEmpty) := by
    rw [List.filterMap_map]
    simp
  have h2 : ((dfs.filterMap id).filter (fun d => !d.isEmpty)).filter (fun d => !d.isEmpty)
      = (dfs.filterMap id).filter (fun d => !d.isEmpty) :=
    List.filter_eq_self.mpr (fun a ha => (List.mem_filter.mp ha).2)
  rw [h1, h2]

/-- C8: every row of the fused dataset produced by `consolidate_dataframes`
has latitude/longitude inside the shared Area-of-Interest bounds
(`WAQI_BOUNDS` of `gas_config.py`; the fusion filter box 8–37°N / 68–97°E is
strictly inside it) and a strictly positive value.  Absence of missing
latitude/longitude/value is captured by the output type: `normalize_dataframe`
only emits `Row`s, whose three numeric fields are total, and `rowPasses`
drops every `RawRow` with a missing field. -/
theorem consolidate_dataframes_rows_in_bounds (dfs : List (Option (List RawRow))) :
    ∀ r ∈ consolidate_dataframes dfs,
      WAQI_BOUNDS.min_lat ≤ r.latitude ∧ r.latitude ≤ WAQI_BOUNDS.max_lat ∧
      WAQI_BOUNDS.min_lon ≤ r.longitude ∧ r.longitude ≤ WAQI_BOUNDS.max_lon ∧
      0 < r.value := by
  intro r hr
  unfold consolidate_dataframes at hr
  rcases hv : ((dfs.filterMap id).filter (fun d => !d.isEmpty)).isEmpty with _ | _
  · rw [hv] at hr
    simp only [Bool.false_eq_true, if_false] at hr
    rcases List.mem_filterMap.mp hr with ⟨raw, _, hpass⟩
    unfold rowPasses at hpass
    rcases hla : raw.latitude with _ | la
    · rw [hla] at hpass; simp at hpass
    rcases hlo : raw.longitude with _ | lo
    · rw [hla, hlo] at hpass; simp at hpass
    rcases hva : raw.value with _ | v
    · rw [hla, hlo, hva] at hpass; simp at hpass
    rw [hla, hlo, hva] at hpass
    simp only at hpass
    split_ifs at hpass with hcond
    · obtain ⟨h1, h2, h3, h4, h5⟩ := hcond
      have hr' := Option.some.inj hpass
      subst hr'
      exact ⟨by show (13/2:ℚ) ≤ la; linarith, by show la ≤ (75/2:ℚ); linarith,
        by show (68:ℚ) ≤ lo; linarith, by show lo ≤ (195/2:ℚ); linarith, h5⟩
  · rw [hv] at hr
    simp at hr

/-! ## Theorems: History Accumulator (C4, C5) -/

/-- C4: the History Accumulator is idempotent — accumulating the same batch
twice yields exactly the same history record list (hence identical size and
content) as accumulating it once. -/
theorem accumulate_pm25_history_idempotent (hist batch : List HistRow) :
    accumulate_pm25_history (accumulate_pm25_history hist batch) batch
      = accumulate_pm25_history hist batch := by
  rcases hb : batch.isEmpty with _ | _
  · simp only [accumulate_pm25_history, hb, Bool.false_eq_true, if_false]
    have habsorb :
        dedupByFirst histKey (dedupByFirst histKey (hist ++ batch) ++ batch)
          = dedupByFirstAux histKey [] (dedupByFirst histKey (hist ++ batch)) := by
      refine dedupByFirstAux_append_absorb histKey _ batch [] ?_
      intro b hbm
      refine Or.inr ?_
      exact dedupByFirstAux_mem_key histKey (hist ++ batch) b []
        (List.mem_append.mpr (Or.inr hbm)) (List.not_mem_nil _)
    have hfix : dedupByFirstAux histKey [] (dedupByFirst histKey (hist ++ batch))
        = dedupByFirst histKey (hist ++ batch) := by
      refine dedupByFirstAux_fixed histKey _ [] (fun x _ => List.not_mem_nil _) ?_
      exact dedupByFirstAux_pairwise histKey [] (hist ++ batch)
    rw [habsorb, hfix]
  · simp only [accumulate_pm25_history, hb, if_true]

/-- C5 counterexample: with a persisted history holding station 1 at
timestamp 0 with value 10 and a new batch holding the same key with value
20, the accumulator keeps the PRIOR record (value 10); the new batch's
record (value 20) is dropped, contradicting the claim that the last-seen
record supersedes the prior one. -/
theorem accumulate_pm25_history_keeps_prior_record :
    accumulate_pm25_history [⟨1, 0, 10⟩] [⟨1, 0, 20⟩] = [⟨1, 0, 10⟩] ∧
    (⟨1, 0, 20⟩ : HistRow) ∉ accumulate_pm25_history [⟨1, 0, 10⟩] [⟨1, 0, 20⟩] := by
  constructor
  · rfl
  · decide

/-- C5 (amended): when the prior history and a non-empty new batch share a
(station identifier, timestamp) key, the accumulator keeps exactly one
record per key, and the record kept is the FIRST-seen one: the prior
history's record survives and supersedes the new batch's record for that
key (pandas `drop_duplicates` default `keep="first"` on
`concat([old, new])`). -/
theorem accumulate_pm25_history_first_wins (hist batch : List HistRow)
    (hb : batch ≠ []) :
    (accumulate_pm25_history hist batch).Pairwise
        (fun a b => histKey a ≠ histKey b) ∧
    ∀ b ∈ batch, (∃ h0 ∈ hist, histKey h0 = histKey b) →
      ∃ h0 ∈ hist, histKey h0 = histKey b ∧
        h0 ∈ accumulate_pm25_history hist batch := by
  have hbe : batch.isEmpty = false := by
    cases batch with
    | nil => exact absurd rfl hb
    | cons x xs => rfl
  simp only [accumulate_pm25_history, hbe, Bool.false_eq_true, if_false]
  constructor
  · exact dedupByFirstAux_pairwise histKey [] (hist ++ batch)
  · intro b _ hex
    exact dedupByFirstAux_left_mem histKey hist batch b [] hex (List.not_mem_nil _)

/-- Witness for C5's amended theorem at a concrete input. -/
theorem accumulate_pm25_history_first_wins_witness :
    ([(⟨1, 0, 20⟩ : HistRow)] ≠ []) ∧
    ((accumulate_pm25_history [⟨1, 0, 10⟩] [⟨1, 0, 20⟩]).Pairwise
        (fun a b => histKey a ≠ histKey b) ∧
     ∀ b ∈ [(⟨1, 0, 20⟩ : HistRow)],
       (∃ h0 ∈ [(⟨1, 0, 10⟩ : HistRow)], histKey h0 = histKey b) →
       ∃ h0 ∈ [(⟨1, 0, 10⟩ : HistRow)], histKey h0 = histKey b ∧
         h0 ∈ accumulate_pm25_history [⟨1, 0, 10⟩] [⟨1, 0, 20⟩]) :=
  ⟨by decide, accumulate_pm25_history_first_wins [⟨1, 0, 10⟩] [⟨1, 0, 20⟩] (by decide)⟩

/-! ## Theorems: Influence Ranker score (C7) -/

/-- C7 counterexample: with pollutant value 0 (and wind 0), doubling the
precipitation from 1 to 2 leaves the influence score unchanged at 0, so the
score is NOT strictly decreasing in precipitation for every fixed
value/wind pair. -/
theorem calculate_influence_score_not_strict_at_zero :
    ¬ (calculate_influence_score 0 0 (2 * 1) < calculate_influence_score 0 0 1) := by
  norm_num [calculate_influence_score]

/-- C7 (amended): for a strictly positive pollutant value, doubling a
strictly positive precipitation strictly decreases the influence score
(wind speed nonnegative), and doubling a strictly positive wind speed
strictly increases it (precipitation nonnegative).  The original claim's
universal quantification fails only at the degenerate inputs `value = 0`,
`precipitation = 0`, or `wind = 0`, where the score is unchanged. -/
theorem calculate_influence_score_monotone (v w p : ℚ) :
    (0 < v → 0 ≤ w → 0 < p →
      calculate_influence_score v w (2 * p) < calculate_influence_score v w p) ∧
    (0 < v → 0 ≤ p → 0 < w →
      calculate_influence_score v w p < calculate_influence_score v (2 * w) p) := by
  constructor
  · intro hv hw hp
    unfold calculate_influence_score
    have h1 : (0:ℚ) < 1 + p * 5 := by linarith
    have h3 : 1 / (1 + 2 * p * 5) < 1 / (1 + p * 5) := by
      apply one_div_lt_one_div_of_lt h1
      linarith
    have hwdiv : (0:ℚ) ≤ w / 15 := div_nonneg hw (by norm_num)
    have hA : 0 < v * (1 + w / 15) := mul_pos hv (by linarith)
    exact mul_lt_mul_of_pos_left h3 hA
  · intro hv hp hw
    unfold calculate_influence_score
    have h1 : (0:ℚ) < 1 + p * 5 := by linarith
    have hinv : (0:ℚ) < 1 / (1 + p * 5) := by positivity
    have hmul : v * (1 + w / 15) < v * (1 + 2 * w / 15) := by
      apply mul_lt_mul_of_pos_left _ hv
      have : w / 15 < 2 * w / 15 := by linarith
      linarith
    exact mul_lt_mul_of_pos_right hmul hinv

/-- Witness for C7's amended theorem at value 1, wind 1, precipitation 1. -/
theorem calculate_influence_score_monotone_witness :
    ((0:ℚ) < 1) ∧
    calculate_influence_score 1 1 (2 * 1) < calculate_influence_score 1 1 1 ∧
    calculate_influence_score 1 1 1 < calculate_influence_score 1 (2 * 1) 1 :=
  ⟨by norm_num,
   (calculate_influence_score_monotone 1 1 1).1 (by norm_num) (by norm_num) (by norm_num),
   (calculate_influence_score_monotone 1 1 1).2 (by norm_num) (by norm_num) (by norm_num)⟩

/-- Witness for C8's theorem: a concrete in-bounds Delhi row survives fusion
and satisfies the bounds. -/
theorem consolidate_dataframes_rows_in_bounds_witness :
    ((⟨0, 20, 77, 50, "pm25", "Delhi", "S"⟩ : Row) ∈
        consolidate_dataframes
          [some [⟨0, some 20, some 77, some 50, "pm25", "Delhi", "S"⟩]]) ∧
    (WAQI_BOUNDS.min_lat ≤ (20:ℚ) ∧ (20:ℚ) ≤ WAQI_BOUNDS.max_lat ∧
     WAQI_BOUNDS.min_lon ≤ (77:ℚ) ∧ (77:ℚ) ≤ WAQI_BOUNDS.max_lon ∧ (0:ℚ) < 50) := by
  have hlist : consolidate_dataframes
        [some [⟨0, some 20, some 77, some 50, "pm25", "Delhi", "S"⟩]]
      = [(⟨0, 20, 77, 50, "pm25", "Delhi", "S"⟩ : Row)] := by decide
  have hmem : (⟨0, 20, 77, 50, "pm25", "Delhi", "S"⟩ : Row) ∈
      consolidate_dataframes
        [some [⟨0, some 20, some 77, some 50, "pm25", "Delhi", "S"⟩]] := by
    rw [hlist]
    exact List.mem_singleton.mpr rfl
  exact ⟨hmem,
    consolidate_dataframes_rows_in_bounds
      [some [⟨0, some 20, some 77, some 50, "pm25", "Delhi", "S"⟩]] _ hmem⟩

/-! ## Spatial Predictor (PollutionPredictor)

Embedding of `PollutionPredictor` (`src/models/hotspot_detection.py`, lines
143-208).  `_load_data` filters the loaded CSV; `predict` interpolates by
inverse distance weighting over the 5 nearest rows of the queried pollutant.
The Python code sorts rows by the Euclidean distance
`sqrt(dlat^2 + dlon^2)`; since `sqrt` is strictly monotone on nonnegative
inputs, sorting by the squared distance `predDist2` is order-equivalent and
keeps the embedding inside ℚ.  The IDW weights use the squared distance
directly (`1 / (dist**2 + 0.01)`), which is `1 / (predDist2 + 1/100)`
exactly.  `none` models `self.df is None` (missing or unreadable CSV). -/

def DEFAULT_VALUES (p : String) : ℚ :=
  if p = "pm25" then 85
  else if p = "pm10" then 120
  else if p = "no2" then 45
  else if p = "so2" then 20
  else if p = "o3" then 35
  else if p = "co" then 6/5
  else 75

/-- Row filter applied by `PollutionPredictor._load_data` (lines 153-165):
drop rows with unknown location, non-positive value, or value ≥ 999.
Missing locations are modeled by the empty string, which is distinct from
the literal "Unknown" and so is NOT dropped by the equality test; the
`notna` test is subsumed because `location` is total here. -/
def loadFilter (df : List Row) : List Row :=
  df.filter (fun r => r.location ≠ "Unknown" && 0 < r.value && r.value < 999)

def predDist2 (r : Row) (lat lon : ℚ) : ℚ :=
  (r.latitude - lat) ^ 2 + (r.longitude - lon) ^ 2

/-- Embedding of `PollutionPredictor.predict` (lines 167-208). -/
def predict (df : Option (List Row)) (lat lon : ℚ) (parameter : String) : ℚ :=
  let withDefault := DEFAULT_VALUES (lowerStr parameter)
  match df with
  | none => withDefault
  | some rows =>
    if rows.isEmpty then withDefault
    else
      let param_df := rows.filter (fun r => r.parameter = lowerStr parameter)
      if param_df.isEmpty then withDefault
      else
        let nearest := (sortedBy
          (fun a b => predDist2 a lat lon ≤ predDist2 b lat lon) param_df).take 5
        if nearest.isEmpty then withDefault
        else
          let weights := nearest.map (fun r => 1 / (predDist2 r lat lon + 1/100))
          let prediction :=
            (nearest.map (fun r => r.value * (1 / (predDist2 r lat lon + 1/100)))).sum
              / weights.sum
          max 5 (min 400 prediction)

/-! ## Theorems: Spatial Predictor (C1) -/

/-- C1 counterexample: a single loadable measurement (value 500 passes the
`_load_data` filter `0 < value < 999`) queried at its exact coordinates
returns the clamp bound 400, not the measurement's value 500 — `predict`
clamps its output to `[5, 400]`, so exact-value recovery fails for loadable
values outside that range. -/
theorem predict_clamps_single_point :
    predict (some (loadFilter [⟨0, 10, 76, 500, "pm25", "X", "S"⟩])) 10 76 "pm25" = 400 ∧
    (400:ℚ) ≠ 500 := by
  constructor
  · have hload : loadFilter [(⟨0, 10, 76, 500, "pm25", "X", "S"⟩ : Row)]
        = [⟨0, 10, 76, 500, "pm25", "X", "S"⟩] := by decide
    have hlow : lowerStr "pm25" = "pm25" := by decide
    rw [hload]
    simp only [predict, hlow, List.isEmpty_cons, Bool.false_eq_true, if_false,
      List.filter, sortedBy, insertSorted, List.take, List.map_cons, List.map_nil,
      List.sum_cons, List.sum_nil]
    norm_num [predDist2]
  · norm_num

/-- C1 (amended): `predict` returns the documented pollutant default on a
missing dataset, an empty dataset, and a dataset with no rows of the queried
pollutant; and on a dataset whose rows of the queried pollutant are exactly
one measurement, querying at that measurement's coordinates returns the
measurement's value exactly — PROVIDED the value lies inside the output
clamp range `[5, 400]` (values outside it are clamped, see the
counterexample). -/
theorem predict_default_and_exact_point (rows : List Row) (lat lon : ℚ)
    (p : String) (r : Row) :
    (predict none lat lon p = DEFAULT_VALUES (lowerStr p)) ∧
    (predict (some []) lat lon p = DEFAULT_VALUES (lowerStr p)) ∧
    ((rows.filter (fun q => q.parameter = lowerStr p)).isEmpty = true →
      predict (some rows) lat lon p = DEFAULT_VALUES (lowerStr p)) ∧
    (rows.filter (fun q => q.parameter = lowerStr p) = [r] →
      5 ≤ r.value → r.value ≤ 400 →
      predict (some rows) r.latitude r.longitude p = r.value) := by
  refine ⟨rfl, rfl, ?_, ?_⟩
  · intro h
    rcases hre : rows.isEmpty with _ | _
    · simp only [predict, hre, Bool.false_eq_true, if_false, h, if_true]
    · simp only [predict, hre, if_true]
  · intro hf h5 h400
    have hne : rows.isEmpty = false := by
      cases rows with
      | nil => simp at hf
      | cons a t => rfl
    have hd0 : predDist2 r r.latitude r.longitude = 0 := by
      simp [predDist2]
    simp only [predict, hne, Bool.false_eq_true, if_false, hf,
      List.isEmpty_cons, sortedBy, insertSorted, List.take, List.map_cons,
      List.map_nil, List.sum_cons, List.sum_nil, hd0]
    have hw : (0:ℚ) + 1/100 = 1/100 := by norm_num
    rw [hw]
    have h100 : (1:ℚ) / (1/100) = 100 := by norm_num
    rw [h100]
    have hpred : r.value * 100 + 0 = r.value * 100 := by ring
    have hsum : (100:ℚ) + 0 = 100 := by norm_num
    rw [hpred, hsum]
    have hdiv : r.value * 100 / 100 = r.value := by field_simp
    rw [hdiv, min_eq_right h400, max_eq_right h5]

/-- Witness for C1's amended theorem: the defaults at pm25, and exact
recovery of a single pm25 measurement of value 90 at its own coordinates. -/
theorem predict_default_and_exact_point_witness :
    (predict none 20 77 "pm25" = DEFAULT_VALUES (lowerStr "pm25") ∧
     predict (some []) 20 77 "pm25" = DEFAULT_VALUES (lowerStr "pm25")) ∧
    (([(⟨0, 20, 77, 90, "no2", "X", "S"⟩ : Row)].filter
        (fun q => q.parameter = lowerStr "pm25")).isEmpty = true ∧
     predict (some [(⟨0, 20, 77, 90, "no2", "X", "S"⟩ : Row)]) 20 77 "pm25"
        = DEFAULT_VALUES (lowerStr "pm25")) ∧
    ([(⟨0, 20, 77, 90, "pm25", "X", "S"⟩ : Row)].filter
        (fun q => q.parameter = lowerStr "pm25")
        = [(⟨0, 20, 77, 90, "pm25", "X", "S"⟩ : Row)] ∧
     predict (some [(⟨0, 20, 77, 90, "pm25", "X", "S"⟩ : Row)]) 20 77 "pm25" = 90) := by
  have hempty : (([(⟨0, 20, 77, 90, "no2", "X", "S"⟩ : Row)]).filter
      (fun q => q.parameter = lowerStr "pm25")).isEmpty = true := by decide
  have hone : ([(⟨0, 20, 77, 90, "pm25", "X", "S"⟩ : Row)]).filter
      (fun q => q.parameter = lowerStr "pm25")
      = [(⟨0, 20, 77, 90, "pm25", "X", "S"⟩ : Row)] := by decide
  refine ⟨⟨(predict_default_and_exact_point [] 20 77 "pm25" ⟨0, 0, 0, 0, "", "", ""⟩).1,
          (predict_default_and_exact_point [] 20 77 "pm25" ⟨0, 0, 0, 0, "", "", ""⟩).2.1⟩,
        ⟨hempty, (predict_default_and_exact_point
            [(⟨0, 20, 77, 90, "no2", "X", "S"⟩ : Row)] 20 77 "pm25"
            ⟨0, 0, 0, 0, "", "", ""⟩).2.2.1 hempty⟩,
        ⟨hone, ?_⟩⟩
  exact (predict_default_and_exact_point
      [(⟨0, 20, 77, 90, "pm25", "X", "S"⟩ : Row)] 20 77 "pm25"
      (⟨0, 20, 77, 90, "pm25", "X", "S"⟩ : Row)).2.2.2 hone
      (by norm_num) (by norm_num)

/-! ## Forecaster (PollutionForecaster)

Embedding of `PollutionForecaster.predict_next_24h` and
`_generate_city_forecast` (`src/models/forecasting.py`).  Two pieces of the
Python code are not expressible as rational arithmetic and are abstracted by
function parameters that the theorems quantify over universally:

* `sqrtQ` stands for the square root inside `clean_df['value'].std()`
  (pandas' sample standard deviation: the square root of the sample
  variance); any value of the standard deviation satisfies the claims.
* `noise` stands for the realization of `np.random.normal(0, std * 0.12)`
  at each forecast hour; a normal variate can realize any real number, so
  the theorems quantify over arbitrary rational realizations.

`nowHour` is the hour-of-day of `datetime.datetime.now()` when the forecast
is generated; hour `i` of the forecast falls at `(nowHour + i) % 24`. -/

def CITY_BASELINES (c : String) : ℚ × ℚ :=
  if c = "delhi" then (180, 45)
  else if c = "mumbai" then (95, 25)
  else if c = "bangalore" then (65, 18)
  else if c = "chennai" then (55, 15)
  else if c = "kolkata" then (120, 32)
  else if c = "hyderabad" then (75, 20)
  else if c = "pune" then (70, 18)
  else if c = "ahmedabad" then (110, 28)
  else if c = "lucknow" then (150, 40)
  else if c = "patna" then (170, 42)
  else if c = "jaipur" then (130, 35)
  else if c = "kanpur" then (160, 38)
  else if c = "bhopal" then (85, 22)
  else if c = "surat" then (90, 24)
  else if c = "visakhapatnam" then (50, 14)
  else (85, 25)

/-- Python `round(x, 1)` on the clamped prediction: round to one decimal
place.  (`round` here rounds half up while Python floats round half to even;
the two differ only on exact ties, which is immaterial to every property
stated below, all of which are preserved by any rounding to one decimal.) -/
def round1 (q : ℚ) : ℚ := ((round (q * 10) : ℤ) : ℚ) / 10

/-- Diurnal multiplier profile of `_generate_city_forecast` (lines 105-120),
selected by the hour of day the forecast point falls on. -/
def forecastMultiplier (isMetro isIndustrial : Bool) (nextHour : ℕ) : ℚ :=
  if 7 ≤ nextHour ∧ nextHour ≤ 10 then (if isMetro then 5/4 else 23/20)
  else if 17 ≤ nextHour ∧ nextHour ≤ 21 then (if isMetro then 27/20 else 6/5)
  else if 22 ≤ nextHour ∨ nextHour ≤ 2 then (if isIndustrial then 11/10 else 9/10)
  else if 2 < nextHour ∧ nextHour ≤ 5 then 7/10
  else if 11 ≤ nextHour ∧ nextHour ≤ 16 then 19/20
  else 1

/-- One forecast value of `_generate_city_forecast` (lines 122-134): baseline
times diurnal multiplier, plus the noise realization, an upward drift after
hour 12, clamped to `[15, 450]`, rounded to one decimal. -/
def forecastStep (avg variation mult : ℚ) (i : ℕ) : ℚ :=
  let pred := avg * mult + variation
  let pred := if 12 < i then pred * (1 + ((i : ℚ) - 12) * (1/200)) else pred
  round1 (max 15 (min 450 pred))

/-- Embedding of `_generate_city_forecast` (lines 93-136). -/
def generate_city_forecast (noise : ℕ → ℚ) (nowHour : ℕ) (avg _std : ℚ)
    (city : String) : List ℚ :=
  let is_industrial : Bool :=
    city = "kanpur" ∨ city = "surat" ∨ city = "ahmedabad" ∨ city = "lucknow"
  let is_metro : Bool :=
    city = "delhi" ∨ city = "mumbai" ∨ city = "bangalore" ∨ city = "kolkata" ∨
    city = "chennai" ∨ city = "hyderabad"
  (List.range 24).map (fun k =>
    forecastStep avg (noise (k + 1))
      (forecastMultiplier is_metro is_industrial ((nowHour + (k + 1)) % 24)) (k + 1))

/-- Sample variance with the pandas default `ddof=1`; its square root (via
the abstracted `sqrtQ`) is `Series.std()`. -/
def sampleVar (xs : List ℚ) : ℚ :=
  (xs.map (fun x => (x - listMean xs) ^ 2)).sum / ((xs.length : ℚ) - 1)

structure ForecastResult where
  predictions : List ℚ
  city : String
  gas : String
  model_type : String
  current_avg : ℚ

/-- Embedding of `predict_next_24h` (lines 36-91).  The "labels" list (pure
time formatting) and the note strings are presentation metadata not modeled
beyond the model-type tag; `std` enters only through the generator, where the
noise realization is already universally quantified. -/
def predict_next_24h (sqrtQ : ℚ → ℚ) (noise : ℕ → ℚ) (nowHour : ℕ)
    (df : List Row) (city : String) : ForecastResult :=
  let gas := "pm25"
  let city_lower := stripStr (lowerStr city)
  let baseline := CITY_BASELINES city_lower
  let clean_df := df.filter (fun r =>
    r.parameter = gas && decide (0 < r.value) && decide (r.value < 500) &&
    decide (r.location ≠ "Unknown") &&
    containsSub (lowerStr r.location).data city_lower.data)
  let hasCityData := decide (10 ≤ clean_df.length)
  let city_avg := if hasCityData then listMean (clean_df.map (fun r => r.value))
    else baseline.1
  let city_std := if hasCityData then
      max (sqrtQ (sampleVar (clean_df.map (fun r => r.value)))) 10
    else baseline.2
  { predictions := generate_city_forecast noise nowHour city_avg city_std city_lower,
    city := city, gas := gas,
    model_type := if hasCityData then "City ML Model" else "City Baseline Model",
    current_avg := city_avg }

/-! ## Theorems: Forecaster (C2) -/

theorem round1_bounds (q : ℚ) (h15 : 15 ≤ q) (h450 : q ≤ 450) :
    15 ≤ round1 q ∧ round1 q ≤ 450 := by
  have hlo : (150:ℤ) ≤ round (q * 10) := by
    rw [round_eq]
    have h1 : ((301:ℚ)/2) ≤ q * 10 + 1/2 := by linarith
    calc (150:ℤ) = ⌊(301:ℚ)/2⌋ := by norm_num
    _ ≤ ⌊q * 10 + 1/2⌋ := Int.floor_mono h1
  have hhi : round (q * 10) ≤ (4500:ℤ) := by
    rw [round_eq]
    have h1 : q * 10 + 1/2 ≤ (9001:ℚ)/2 := by linarith
    calc ⌊q * 10 + 1/2⌋ ≤ ⌊(9001:ℚ)/2⌋ := Int.floor_mono h1
    _ = 4500 := by norm_num
  constructor
  · have : (150:ℚ) ≤ ((round (q * 10) : ℤ) : ℚ) := by exact_mod_cast hlo
    unfold round1
    linarith
  · have : ((round (q * 10) : ℤ) : ℚ) ≤ 4500 := by exact_mod_cast hhi
    unfold round1
    linarith

theorem forecastStep_bounds (avg variation mult : ℚ) (i : ℕ) :
    15 ≤ forecastStep avg variation mult i ∧ forecastStep avg variation mult i ≤ 450 := by
  unfold forecastStep
  apply round1_bounds
  · exact le_max_left 15 _
  · exact max_le (by norm_num) (min_le_left 450 _)

/-- C2: for every square-root realization, noise realization, wall-clock
hour, input dataframe and city name, `predict_next_24h` returns exactly 24
predictions, each within `[15, 450]`. -/
theorem predict_next_24h_bounds (sqrtQ : ℚ → ℚ) (noise : ℕ → ℚ) (nowHour : ℕ)
    (df : List Row) (city : String) :
    (predict_next_24h sqrtQ noise nowHour df city).predictions.length = 24 ∧
    ∀ x ∈ (predict_next_24h sqrtQ noise nowHour df city).predictions,
      15 ≤ x ∧ x ≤ 450 := by
  constructor
  · simp [predict_next_24h, generate_city_forecast]
  · intro x hx
    simp only [predict_next_24h, generate_city_forecast, List.mem_map] at hx
    obtain ⟨k, _, hk⟩ := hx
    rw [← hk]
    exact forecastStep_bounds _ _ _ _

/-- Witness for C2 at a concrete input: zero square root, zero noise,
midnight, empty dataframe, city "delhi". -/
theorem predict_next_24h_bounds_witness :
    (predict_next_24h (fun _ => 0) (fun _ => 0) 0 [] "delhi").predictions.length = 24 ∧
    ∀ x ∈ (predict_next_24h (fun _ => 0) (fun _ => 0) 0 [] "delhi").predictions,
      15 ≤ x ∧ x ≤ 450 :=
  predict_next_24h_bounds (fun _ => 0) (fun _ => 0) 0 [] "delhi"

/-! ## Spatial Hotspot Engine (HotspotDetector)

Embedding of `HotspotDetector` (`src/models/hotspot_detection.py`, lines
83-140).  The persisted artifacts are a fitted `StandardScaler` (per-feature
mean and scale; `transform` is `(x - mean) / scale`) and a fitted `KMeans`
model (a list of centroids in standardized feature space; `predict` assigns
the index of the nearest centroid, first index winning ties, as in
scikit-learn).  `_load_models` leaves a field `none` when its artifact file
is absent or fails to deserialize (the `except` branch), which is exactly the
hypothesis of claim C9. -/

structure ScalerQ where
  meanLat : ℚ
  meanLon : ℚ
  meanVal : ℚ
  scaleLat : ℚ
  scaleLon : ℚ
  scaleVal : ℚ

def ScalerQ.transform (s : ScalerQ) (x : ℚ × ℚ × ℚ) : ℚ × ℚ × ℚ :=
  ((x.1 - s.meanLat) / s.scaleLat, (x.2.1 - s.meanLon) / s.scaleLon,
   (x.2.2 - s.meanVal) / s.scaleVal)

structure KMeansQ where
  centroids : List (ℚ × ℚ × ℚ)

def sqDist3 (a b : ℚ × ℚ × ℚ) : ℚ :=
  (a.1 - b.1) ^ 2 + (a.2.1 - b.2.1) ^ 2 + (a.2.2 - b.2.2) ^ 2

def KMeansQ.predictCluster (m : KMeansQ) (x : ℚ × ℚ × ℚ) : ℕ :=
  ((m.centroids.enum.foldl (fun best c =>
      match best with
      | none => some c
      | some b => if sqDist3 c.2 x < sqDist3 b.2 x then some c else some b)
    none).map (fun c => c.1)).getD 0

/-- Most frequent string of a list, smallest-first among ties, "Unknown" on
the empty list — the behavior of `x.mode().iloc[0] if not x.mode().empty
else "Unknown"` (pandas `mode()` returns the most frequent values sorted
ascending). -/
def modeStr (l : List String) : String :=
  (((dedupByFirst id l).map (fun s => (s, (l.filter (fun x => x = s)).length))).foldl
      (fun best p =>
        match best with
        | none => some p
        | some b => if b.2 < p.2 ∨ (p.2 = b.2 ∧ p.1 < b.1) then some p else some b)
      none).map (fun p => p.1) |>.getD "Unknown"

structure Hotspot where
  cluster : ℕ
  avg_value : ℚ
  latitude : ℚ
  longitude : ℚ
  location : String
  data_points : ℕ
  rank : ℕ
  city_name : String

/-- Embedding of `HotspotDetector.detect_hotspots` (lines 101-140): with
both artifacts loaded, filter to the requested pollutant (the `notna` guards
are total here), label each row with its predicted cluster, aggregate per
cluster (pandas `groupby` sorts the cluster keys ascending), sort the
aggregates by descending mean value and assign ranks from 1; with either
artifact missing, return the empty list without raising (the claim's
degraded mode).  The Python body's `try/except` that maps any inference
error to an empty frame has no counterpart because the embedding is total. -/
def detect_hotspots (model : Option KMeansQ) (scaler : Option ScalerQ)
    (df : List Row) (parameter : String) : List Hotspot :=
  match model, scaler with
  | some m, some s =>
    let target := df.filter (fun r => r.parameter = parameter)
    if target.isEmpty then []
    else
      let labeled := target.map (fun r =>
        (m.predictCluster (s.transform (r.latitude, r.longitude, r.value)), r))
      let clusters := sortedBy (fun a b => decide (a ≤ b))
        (dedupByFirst id (labeled.map (fun p => p.1)))
      let agg := clusters.map (fun c =>
        let rows := (labeled.filter (fun p => p.1 = c)).map (fun p => p.2)
        ({ cluster := c,
           avg_value := listMean (rows.map (fun r => r.value)),
           latitude := listMean (rows.map (fun r => r.latitude)),
           longitude := listMean (rows.map (fun r => r.longitude)),
           location := modeStr (rows.map (fun r => r.location)),
           data_points := rows.length, rank := 0, city_name := "" } : Hotspot))
      let sorted := sortedBy (fun a b : Hotspot => decide (b.avg_value ≤ a.avg_value)) agg
      sorted.enum.map (fun p : ℕ × Hotspot =>
        { p.2 with rank := p.1 + 1, city_name := p.2.location })
  | _, _ => []

/-! ## Theorems: Hotspot Engine degraded mode (C9) -/

/-- C9: if the persisted clustering model or the scaler artifact is absent
or failed to load (the corresponding field is `none` after `_load_models`),
`detect_hotspots` returns the empty hotspot list for every input dataframe
and pollutant filter; totality of the embedding reflects that the guard
returns before any code that could raise. -/
theorem detect_hotspots_empty_without_models (model : Option KMeansQ)
    (scaler : Option ScalerQ) (df : List Row) (parameter : String)
    (h : model = none ∨ scaler = none) :
    detect_hotspots model scaler df parameter = [] := by
  rcases h with rfl | rfl
  · rfl
  · cases model with
    | none => rfl
    | some m => rfl

/-- Witness for C9 at a concrete input: a missing model with a present
scaler, on a one-row dataframe. -/
theorem detect_hotspots_empty_without_models_witness :
    ((none : Option KMeansQ) = none ∨ (some ⟨0, 0, 0, 1, 1, 1⟩ : Option ScalerQ) = none) ∧
    detect_hotspots none (some ⟨0, 0, 0, 1, 1, 1⟩)
      [⟨0, 20, 77, 50, "pm25", "Delhi", "S"⟩] "pm25" = [] :=
  ⟨Or.inl rfl,
   detect_hotspots_empty_without_models none (some ⟨0, 0, 0, 1, 1, 1⟩)
     [⟨0, 20, 77, 50, "pm25", "Delhi", "S"⟩] "pm25" (Or.inl rfl)⟩

/-! ## Influence Ranker (get_ranked_warnings)

Embedding of `get_ranked_warnings` (`src/models/hotspot_detection.py`,
lines 230-270).  The weather dataframe rows carry the columns the function
reads (`date`, `wind_speed`, `wind_direction`, `total_precipitation`).
`latestWeatherRec` models `weather_df.sort_values('date').iloc[-1]`: the
final element of a stable ascending sort by date is the last-occurring row
of maximal date, which the fold below selects directly. -/

structure WeatherRec where
  date : ℤ
  wind_speed : ℚ
  wind_direction : ℚ
  total_precipitation : ℚ
deriving DecidableEq

def latestWeatherRec (w0 : WeatherRec) (ws : List WeatherRec) : WeatherRec :=
  ws.foldl (fun acc w => if acc.date ≤ w.date then w else acc) w0

structure WarnEntry where
  city : String
  avg_value : ℚ
  score : ℚ
  wind_speed : ℚ
  wind_direction : ℚ
  precipitation : ℚ
deriving DecidableEq

/-- Embedding of `get_ranked_warnings`: empty data or weather short-circuits
to no warnings; otherwise the single globally latest weather row supplies
wind speed, wind direction and precipitation for EVERY city; cities are the
distinct `location` values in first-appearance order (pandas
`Series.unique()`); a city contributes a warning when it has pm25 rows with
mean value above 50; warnings are sorted by descending score and truncated
to `top_n`.  A missing (NaN) location in the dataframe would be skipped by
`if not city or str(city).lower() == 'nan'`; locations are total strings in
the embedding, so the same test appears as emptiness / literal "nan". -/
def get_ranked_warnings (data : List Row) (weather : List WeatherRec)
    (top_n : ℕ) : List WarnEntry :=
  match data, weather with
  | [], _ => []
  | _ :: _, [] => []
  | _ :: _, w0 :: ws =>
    let latest := latestWeatherRec w0 ws
    let cities := dedupByFirst id (data.map (fun r => r.location))
    let entries := cities.filterMap (fun c =>
      if c = "" ∨ lowerStr c = "nan" then none
      else
        let pm25_rows := data.filter (fun r => r.location = c && r.parameter = "pm25")
        if pm25_rows.isEmpty then none
        else
          let val := listMean (pm25_rows.map (fun r => r.value))
          if 50 < val then
            some ({ city := c, avg_value := val,
                    score := calculate_influence_score val latest.wind_speed
                      latest.total_precipitation,
                    wind_speed := latest.wind_speed,
                    wind_direction := latest.wind_direction,
                    precipitation := latest.total_precipitation } : WarnEntry)
          else none)
    (sortedBy (fun a b : WarnEntry => decide (b.score ≤ a.score)) entries).take top_n

/-! ## Theorems: Influence Ranker uses one global weather row (C10) -/

/-- C10: every warning entry returned by `get_ranked_warnings` carries the
wind speed, wind direction and precipitation of the single globally latest
weather row (`sort_values('date').iloc[-1]`), and its score is the influence
score of the entry's own mean value with that one global wind/precipitation
context — no per-city or nearest-station weather is used, so all returned
entries carry identical wind_speed, wind_direction and precipitation. -/
theorem get_ranked_warnings_single_weather_row (data : List Row)
    (w0 : WeatherRec) (ws : List WeatherRec) (top_n : ℕ) :
    ∀ e ∈ get_ranked_warnings data (w0 :: ws) top_n,
      e.wind_speed = (latestWeatherRec w0 ws).wind_speed ∧
      e.wind_direction = (latestWeatherRec w0 ws).wind_direction ∧
      e.precipitation = (latestWeatherRec w0 ws).total_precipitation ∧
      e.score = calculate_influence_score e.avg_value
        (latestWeatherRec w0 ws).wind_speed
        (latestWeatherRec w0 ws).total_precipitation := by
  intro e he
  cases data with
  | nil => simp [get_ranked_warnings] at he
  | cons d ds =>
    simp only [get_ranked_warnings] at he
    have he2 := List.take_subset top_n _ he
    rw [mem_sortedBy] at he2
    rcases List.mem_filterMap.mp he2 with ⟨c, _, hsome⟩
    split_ifs at hsome with h1 h2 h3
    obtain rfl := Option.some.inj hsome
    exact ⟨rfl, rfl, rfl, rfl⟩

/-- Witness for C10 at a concrete input: one Delhi pm25 row of value 100 and
a single weather row with wind 15, direction 90, precipitation 0. -/
theorem get_ranked_warnings_single_weather_row_witness :
    ((⟨"Delhi", 100, 200, 15, 90, 0⟩ : WarnEntry) ∈
      get_ranked_warnings [⟨0, 20, 77, 100, "pm25", "Delhi", "S"⟩]
        [⟨0, 15, 90, 0⟩] 4) ∧
    ((⟨"Delhi", 100, 200, 15, 90, 0⟩ : WarnEntry).wind_speed
        = (latestWeatherRec ⟨0, 15, 90, 0⟩ []).wind_speed ∧
     (⟨"Delhi", 100, 200, 15, 90, 0⟩ : WarnEntry).wind_direction
        = (latestWeatherRec ⟨0, 15, 90, 0⟩ []).wind_direction ∧
     (⟨"Delhi", 100, 200, 15, 90, 0⟩ : WarnEntry).precipitation
        = (latestWeatherRec ⟨0, 15, 90, 0⟩ []).total_precipitation ∧
     (⟨"Delhi", 100, 200, 15, 90, 0⟩ : WarnEntry).score
        = calculate_influence_score
            (⟨"Delhi", 100, 200, 15, 90, 0⟩ : WarnEntry).avg_value
            (latestWeatherRec ⟨0, 15, 90, 0⟩ []).wind_speed
            (latestWeatherRec ⟨0, 15, 90, 0⟩ []).total_precipitation) := by
  have hmem : (⟨"Delhi", 100, 200, 15, 90, 0⟩ : WarnEntry) ∈
      get_ranked_warnings [⟨0, 20, 77, 100, "pm25", "Delhi", "S"⟩]
        [⟨0, 15, 90, 0⟩] 4 := by
    have hlist : get_ranked_warnings [⟨0, 20, 77, 100, "pm25", "Delhi", "S"⟩]
        [⟨0, 15, 90, 0⟩] 4 = [⟨"Delhi", 100, 200, 15, 90, 0⟩] := by
      norm_num [get_ranked_warnings, latestWeatherRec, dedupByFirst, dedupByFirstAux,
        lowerStr, calculate_influence_score, listMean, sortedBy, insertSorted,
        List.filterMap_cons, List.filter_cons]
    rw [hlist]
    exact List.mem_singleton.mpr rfl
  exact ⟨hmem, get_ranked_warnings_single_weather_row
    [⟨0, 20, 77, 100, "pm25", "Delhi", "S"⟩] ⟨0, 15, 90, 0⟩ [] 4 _ hmem⟩

/-! ## Advection Tracker (track_pollution_movement)

Embedding of `calculate_wind_components` and `track_pollution_movement`
(`src/data_collection/fetch_era5_weather.py`, lines 198-277).  Wind-vector
components need real trigonometry, so trajectory coordinates live in ℝ
(the only non-rational corner of the embedding); station coordinates,
speeds and directions stay in ℚ, keeping the nearest-station selection
computable.  `latestPerCity` models `weather_df.groupby('city').last()`:
one row per city — the last row of each group — with the group keys in
ascending order (pandas sorts group keys).  The Python code squares no
roots: its `dist` column is the SQUARED degree distance, and the skip
threshold `4.0` is in squared degrees (≈ 2° ≈ 200 km). -/

structure WeatherRow where
  city : String
  latitude : ℚ
  longitude : ℚ
  wind_speed : ℚ
  wind_direction : ℚ
deriving DecidableEq

noncomputable def deg2rad (d : ℚ) : ℝ := (d : ℝ) * Real.pi / 180

/-- Eastward wind component of `calculate_wind_components`:
`-speed * sin(direction_rad)`. -/
noncomputable def wind_u (w : WeatherRow) : ℝ :=
  -(w.wind_speed : ℝ) * Real.sin (deg2rad w.wind_direction)

/-- Northward wind component of `calculate_wind_components`:
`-speed * cos(direction_rad)`. -/
noncomputable def wind_v (w : WeatherRow) : ℝ :=
  -(w.wind_speed : ℝ) * Real.cos (deg2rad w.wind_direction)

/-- Squared planar degree distance used for the nearest-station search
(`latest_weather['dist']`). -/
def stationDist2 (w : WeatherRow) (lat lon : ℚ) : ℚ :=
  (w.latitude - lat) ^ 2 + (w.longitude - lon) ^ 2

/-- Nearest station by squared distance; `idxmin` returns the first
occurrence of the minimum, matched by keeping the earlier row on ties. -/
def nearestStation (ws : List WeatherRow) (lat lon : ℚ) : Option WeatherRow :=
  ws.foldl (fun acc w =>
    match acc with
    | none => some w
    | some b => if stationDist2 w lat lon < stationDist2 b lat lon then some w else some b)
    none

def latestPerCity (ws : List WeatherRow) : List WeatherRow :=
  (sortedBy (fun a b => decide (a ≤ b)) (dedupByFirst id (ws.map (fun w => w.city)))).filterMap
    (fun c => (ws.filter (fun w => w.city = c)).getLast?)

structure TrajPoint where
  original_lat : ℚ
  original_lon : ℚ
  predicted_lat : ℝ
  predicted_lon : ℝ
  hours_ahead : ℕ
  value : ℚ
  parameter : String
  wind_speed : ℚ
  wind_direction : ℚ

/-- Trajectory points generated for one measurement row (the body of the
`for _, p_row in pollution_df.iterrows()` loop, lines 243-270): find the
nearest latest-per-city weather row; skip the measurement entirely when its
squared distance exceeds 4.0; otherwise project the origin for hours 1..12
by `wind × h × 0.01` per component.  An empty weather set yields no points
(the Python code would fault on `idxmin` there; callers guard against it). -/
noncomputable def trackOne (lw : List WeatherRow) (r : Row) : List TrajPoint :=
  match nearestStation lw r.latitude r.longitude with
  | none => []
  | some w =>
    if 4 < stationDist2 w r.latitude r.longitude then []
    else (List.range 12).map (fun k =>
      { original_lat := r.latitude, original_lon := r.longitude,
        predicted_lat := (r.latitude : ℝ) + wind_v w * ((k + 1 : ℕ) : ℝ) * (1/100),
        predicted_lon := (r.longitude : ℝ) + wind_u w * ((k + 1 : ℕ) : ℝ) * (1/100),
        hours_ahead := k + 1, value := r.value, parameter := r.parameter,
        wind_speed := w.wind_speed, wind_direction := w.wind_direction })

/-- Embedding of `track_pollution_movement` with the default
`hours_forward = 12`. -/
noncomputable def track_pollution_movement (pollution : List Row)
    (weather : List WeatherRow) : List TrajPoint :=
  (pollution.map (trackOne (latestPerCity weather))).flatten

/-! ## Theorems: Advection Tracker (C6) -/

/-- C6: (1) a measurement whose squared distance to the nearest
latest-per-city weather station exceeds the threshold 4.0 produces no
trajectory points; (2) an accepted measurement paired with wind from due
north (direction 0°) at strictly positive speed has every projected point's
northward (latitude) displacement strictly negative: the wind vector
convention `v = -speed·cos(direction)` moves the plume southward. -/
theorem track_pollution_movement_threshold_and_north_wind :
    (∀ (weather : List WeatherRow) (r : Row) (w : WeatherRow),
      nearestStation (latestPerCity weather) r.latitude r.longitude = some w →
      4 < stationDist2 w r.latitude r.longitude →
      track_pollution_movement [r] weather = []) ∧
    (∀ (weather : List WeatherRow) (r : Row) (w : WeatherRow),
      nearestStation (latestPerCity weather) r.latitude r.longitude = some w →
      stationDist2 w r.latitude r.longitude ≤ 4 →
      w.wind_direction = 0 → 0 < w.wind_speed →
      ∀ t ∈ track_pollution_movement [r] weather,
        t.predicted_lat - (r.latitude : ℝ) < 0) := by
  constructor
  · intro weather r w hnear hfar
    simp only [track_pollution_movement, List.map_cons, List.map_nil, trackOne, hnear,
      if_pos hfar]
    simp
  · intro weather r w hnear hclose hdir hspeed t ht
    have hv : wind_v w = -(w.wind_speed : ℝ) := by
      unfold wind_v deg2rad
      rw [hdir]
      push_cast
      simp
    simp only [track_pollution_movement, List.map_cons, List.map_nil, trackOne, hnear,
      if_neg (not_lt.mpr hclose), List.flatten, List.append_nil] at ht
    rcases List.mem_map.mp ht with ⟨k, _, rfl⟩
    simp only [hv]
    have hs : (0:ℝ) < (w.wind_speed : ℝ) := by exact_mod_cast hspeed
    have hk1 : (0:ℝ) < ((k + 1 : ℕ) : ℝ) := by positivity
    nlinarith

/-- Witness for C6 at concrete inputs: one station at the origin with wind
from due north at speed 1; a far measurement at (10, 10) (squared distance
200 > 4) yields no trajectory points, and a coincident measurement at the
origin is displaced strictly southward at every horizon. -/
theorem track_pollution_movement_threshold_and_north_wind_witness :
    track_pollution_movement [⟨0, 10, 10, 100, "pm25", "Delhi", "S"⟩]
      [⟨"A", 0, 0, 1, 0⟩] = [] ∧
    ∀ t ∈ track_pollution_movement [⟨0, 0, 0, 100, "pm25", "Delhi", "S"⟩]
        [⟨"A", 0, 0, 1, 0⟩],
      t.predicted_lat - (((⟨0, 0, 0, 100, "pm25", "Delhi", "S"⟩ : Row).latitude : ℚ) : ℝ) < 0 := by
  constructor
  · exact track_pollution_movement_threshold_and_north_wind.1
      [⟨"A", 0, 0, 1, 0⟩] ⟨0, 10, 10, 100, "pm25", "Delhi", "S"⟩ ⟨"A", 0, 0, 1, 0⟩
      rfl (by norm_num [stationDist2])
  · exact track_pollution_movement_threshold_and_north_wind.2
      [⟨"A", 0, 0, 1, 0⟩] ⟨0, 0, 0, 100, "pm25", "Delhi", "S"⟩ ⟨"A", 0, 0, 1, 0⟩
      rfl (by norm_num [stationDist2]) rfl (by norm_num)
